import Mathlib

/-!
Verification of the violet instant-messaging backend (im-connect gateway,
im-server fan-out API, im-share library) against its design specification.
The Rust sources are shallowly embedded as pure Lean functions; stateful
components (the session map, the chat table, the offline queue) are modelled
by explicit state passing, and external effects (database, broker, Redis)
by oracle parameters recording the outcome the external system returned.
-/

namespace Violet

/-! ### Device types and groups (im-connect/src/device.rs)

Rust `str::trim` / `str::to_lowercase` are modelled on the character list of
the string (ASCII-faithful, which covers every device-type name involved). -/

def rustTrim (s : String) : String :=
  ⟨((s.data.dropWhile Char.isWhitespace).reverse.dropWhile Char.isWhitespace).reverse⟩

def rustToLower (s : String) : String :=
  ⟨s.data.map Char.toLower⟩

inductive DeviceGroup where
  | Mobile
  | Desktop
  | Web
deriving DecidableEq, Repr

structure IMDeviceType where
  typeName : String
  group : DeviceGroup
deriving DecidableEq, Repr

def IMDeviceType.ANDROID : IMDeviceType := ⟨"android", DeviceGroup.Mobile⟩

def IMDeviceType.IOS : IMDeviceType := ⟨"ios", DeviceGroup.Mobile⟩

def IMDeviceType.WEB : IMDeviceType := ⟨"web", DeviceGroup.Web⟩

def IMDeviceType.MAC : IMDeviceType := ⟨"mac", DeviceGroup.Desktop⟩

def IMDeviceType.WIN : IMDeviceType := ⟨"win", DeviceGroup.Desktop⟩

def IMDeviceType.LINUX : IMDeviceType := ⟨"linux", DeviceGroup.Desktop⟩

def IMDeviceType.ALL : List IMDeviceType :=
  [IMDeviceType.ANDROID, IMDeviceType.IOS, IMDeviceType.WEB,
   IMDeviceType.MAC, IMDeviceType.WIN, IMDeviceType.LINUX]

def IMDeviceType.of (s : String) : Option IMDeviceType :=
  let key := rustToLower (rustTrim s)
  if key.isEmpty then none
  else IMDeviceType.ALL.find? (fun t => t.typeName == key)

def IMDeviceType.of_or_default (s : String) (dflt : IMDeviceType) : IMDeviceType :=
  (IMDeviceType.of s).getD dflt

def IMDeviceType.group_from (s : String) (dflt : DeviceGroup) : DeviceGroup :=
  ((IMDeviceType.of s).map IMDeviceType.group).getD dflt

/-! ### Session / channel map (im-connect/src/channel.rs)

`DashMap<String, DashMap<DeviceGroup, UserChannel>>` is modelled as a total
function `String → DeviceGroup → Option UserChannel` (a map holds at most one
value per key).  The mpsc sender of a `UserChannel` carries no data relevant
to the claims; eviction is made observable by returning the list of channels
to which `send_kick_and_close` was applied. -/

structure UserChannel where
  channelId : String
  deviceType : IMDeviceType
  group : DeviceGroup
deriving DecidableEq, Repr

def ChannelMapState := String → DeviceGroup → Option UserChannel

def emptyChannelMap : ChannelMapState := fun _ _ => none

def allGroups : List DeviceGroup := [DeviceGroup.Mobile, DeviceGroup.Desktop, DeviceGroup.Web]

def updInner (inner : DeviceGroup → Option UserChannel) (g : DeviceGroup)
    (v : Option UserChannel) : DeviceGroup → Option UserChannel :=
  fun g' => if g' = g then v else inner g'

/-- `UserChannelMap::add_channel`: same-group eviction, then (when
`multi_device_enabled = false`) eviction of every other group, then insertion
of the fresh channel.  The fresh uuid is passed in as `newChannelId`; the
returned list holds the channels that were kicked (in kick order). -/
def addChannel (multiDeviceEnabled : Bool) (s : ChannelMapState) (userId : String)
    (deviceType : IMDeviceType) (newChannelId : String) :
    ChannelMapState × List UserChannel :=
  let g := deviceType.group
  let byUser := s userId
  let kickedSameGroup := (byUser g).toList
  let byUser1 := updInner byUser g none
  let kickedOtherGroups :=
    if multiDeviceEnabled then []
    else (allGroups.filter (fun g' => g' ≠ g)).filterMap byUser1
  let byUser2 :=
    if multiDeviceEnabled then byUser1
    else fun g' => if g' = g then byUser1 g' else none
  let uc : UserChannel := ⟨newChannelId, deviceType, g⟩
  let byUser3 := updInner byUser2 g (some uc)
  (fun u => if u = userId then byUser3 else s u, kickedSameGroup ++ kickedOtherGroups)

/-- `UserChannelMap::remove_channel`: resolves the group from the device-type
string (defaulting to Web) and clears that slot.  Removing the user entry when
it becomes empty is invisible in the functional model. -/
def removeChannel (s : ChannelMapState) (userId deviceTypeStr : String) : ChannelMapState :=
  let g := IMDeviceType.group_from deviceTypeStr DeviceGroup.Web
  fun u => if u = userId then updInner (s u) g none else s u

/-- `UserChannelMap::remove_by_channel_id`: clears the slot only when the
stored channel id equals the argument. -/
def removeByChannelId (s : ChannelMapState) (userId : String) (g : DeviceGroup)
    (channelId : String) : ChannelMapState :=
  match s userId g with
  | some uc =>
    if uc.channelId = channelId then
      fun u => if u = userId then updInner (s u) g none else s u
    else s
  | none => s

/-- `UserChannelMap::get_all_tx_by_user` (the senders of every live channel of
the user). -/
def getAllByUser (s : ChannelMapState) (userId : String) : List UserChannel :=
  allGroups.filterMap (s userId)

def chanSlotCount (o : Option UserChannel) : Nat :=
  match o with
  | some _ => 1
  | none => 0

def userChannelCount (s : ChannelMapState) (userId : String) : Nat :=
  (allGroups.filterMap (s userId)).length

/-- Cross-group exclusion invariant: with `multi_device_enabled = false` every
user holds at most one channel summed over all device groups. -/
def sessionInv (multiDeviceEnabled : Bool) (s : ChannelMapState) : Prop :=
  multiDeviceEnabled = false → ∀ userId, userChannelCount s userId ≤ 1

inductive ChannelOp where
  | add (userId : String) (deviceType : IMDeviceType) (newChannelId : String)
  | removeByType (userId deviceTypeStr : String)
  | removeById (userId : String) (g : DeviceGroup) (channelId : String)

def applyChannelOp (multiDeviceEnabled : Bool) (op : ChannelOp) (s : ChannelMapState) :
    ChannelMapState :=
  match op with
  | ChannelOp.add uid dt nid => (addChannel multiDeviceEnabled s uid dt nid).1
  | ChannelOp.removeByType uid ds => removeChannel s uid ds
  | ChannelOp.removeById uid g cid => removeByChannelId s uid g cid

/-- The device-type resolution performed by `handle_register`
(im-connect/src/login.rs): the argument is the already-trimmed wire field
`wrap.device_type.trim()`; empty resolves to WEB, otherwise
`IMDeviceType::of_or_default(_, WEB)`. -/
def resolveRegisterDevice (deviceTypeStr : String) : IMDeviceType :=
  if deviceTypeStr.isEmpty then IMDeviceType.WEB
  else IMDeviceType.of_or_default deviceTypeStr IMDeviceType.WEB

theorem chanSlotCount_le_one (o : Option UserChannel) : chanSlotCount o ≤ 1 := by
  cases o <;> simp [chanSlotCount]

theorem userChannelCount_eq_sum (s : ChannelMapState) (uid : String) :
    userChannelCount s uid =
      chanSlotCount (s uid DeviceGroup.Mobile) + chanSlotCount (s uid DeviceGroup.Desktop) +
        chanSlotCount (s uid DeviceGroup.Web) := by
  unfold userChannelCount allGroups
  cases h1 : s uid DeviceGroup.Mobile <;> cases h2 : s uid DeviceGroup.Desktop <;>
    cases h3 : s uid DeviceGroup.Web <;>
      simp [List.filterMap_cons, h1, h2, h3, chanSlotCount]

theorem addChannel_state_inner (multi : Bool) (s : ChannelMapState) (uid : String)
    (dt : IMDeviceType) (nid : String) (g' : DeviceGroup) :
    (addChannel multi s uid dt nid).1 uid g' =
      if g' = dt.group then some ⟨nid, dt, dt.group⟩
      else if multi then updInner (s uid) dt.group none g' else none := by
  unfold addChannel updInner
  by_cases hg : g' = dt.group <;> by_cases hm : multi <;> simp [hg, hm]

theorem addChannel_state_other (multi : Bool) (s : ChannelMapState) (uid : String)
    (dt : IMDeviceType) (nid : String) (u : String) (hu : u ≠ uid) (g' : DeviceGroup) :
    (addChannel multi s uid dt nid).1 u g' = s u g' := by
  unfold addChannel
  simp [hu]

theorem removeChannel_state (s : ChannelMapState) (uid ds : String) (u : String)
    (g' : DeviceGroup) :
    removeChannel s uid ds u g' =
      if u = uid ∧ g' = IMDeviceType.group_from ds DeviceGroup.Web then none
      else s u g' := by
  unfold removeChannel updInner
  by_cases hu : u = uid <;> by_cases hg : g' = IMDeviceType.group_from ds DeviceGroup.Web <;>
    simp [hu, hg]

def storedIdMatches (o : Option UserChannel) (cid : String) : Bool :=
  match o with
  | some uc => uc.channelId == cid
  | none => false

theorem removeByChannelId_state (s : ChannelMapState) (uid : String) (g : DeviceGroup)
    (cid : String) (u : String) (g' : DeviceGroup) :
    removeByChannelId s uid g cid u g' =
      if storedIdMatches (s uid g) cid ∧ u = uid ∧ g' = g then none else s u g' := by
  unfold removeByChannelId updInner
  cases h : s uid g with
  | none => simp [storedIdMatches, h]
  | some uc =>
    by_cases hc : uc.channelId = cid
    · by_cases hu : u = uid <;> by_cases hg : g' = g <;>
        simp [storedIdMatches, h, hc, hu, hg]
    · simp [storedIdMatches, h, hc]

theorem chanSlotCount_ite_none_le (c : Prop) [Decidable c] (o : Option UserChannel) :
    chanSlotCount (if c then none else o) ≤ chanSlotCount o := by
  split
  · cases o <;> simp [chanSlotCount]
  · exact Nat.le_refl _

theorem addChannel_kicks_same_group (multi : Bool) (s : ChannelMapState) (uid : String)
    (dt : IMDeviceType) (nid : String) (old : UserChannel)
    (hold : s uid dt.group = some old) :
    old ∈ (addChannel multi s uid dt nid).2 := by
  unfold addChannel
  simp [hold]

/-- C6: the session map stores at most one channel per `(user, group)` slot
(structural invariant of the map), and when `multi_device_enabled = false` the
invariant "at most one channel per user summed over all groups" holds of the
empty map and is preserved by `add_channel`, `remove_channel` and
`remove_by_channel_id`. -/
theorem session_map_exclusion_invariants (multi : Bool) (s : ChannelMapState)
    (op : ChannelOp) (hinv : sessionInv multi s) :
    (∀ (t : ChannelMapState) uid g, chanSlotCount (t uid g) ≤ 1) ∧
    sessionInv multi emptyChannelMap ∧
    sessionInv multi (applyChannelOp multi op s) := by
  refine ⟨fun t uid g => chanSlotCount_le_one _, ?_, ?_⟩
  · intro _ uid
    rw [userChannelCount_eq_sum]
    simp [emptyChannelMap, chanSlotCount]
  · cases op with
    | add uid dt nid =>
      intro hm u
      subst hm
      rw [userChannelCount_eq_sum]
      by_cases hu : u = uid
      · subst hu
        rw [show applyChannelOp false (ChannelOp.add u dt nid) s =
              (addChannel false s u dt nid).1 from rfl]
        rw [addChannel_state_inner, addChannel_state_inner, addChannel_state_inner]
        cases dt.group <;> simp [chanSlotCount]
      · have h1 := addChannel_state_other false s uid dt nid u hu
        rw [show applyChannelOp false (ChannelOp.add uid dt nid) s =
              (addChannel false s uid dt nid).1 from rfl]
        rw [h1, h1, h1, ← userChannelCount_eq_sum]
        exact hinv rfl u
    | removeByType uid ds =>
      intro hm u
      have hb := hinv hm u
      rw [userChannelCount_eq_sum] at hb
      rw [userChannelCount_eq_sum]
      rw [show applyChannelOp multi (ChannelOp.removeByType uid ds) s =
            removeChannel s uid ds from rfl]
      rw [removeChannel_state, removeChannel_state, removeChannel_state]
      have m1 := chanSlotCount_ite_none_le
        (u = uid ∧ DeviceGroup.Mobile = IMDeviceType.group_from ds DeviceGroup.Web)
        (s u DeviceGroup.Mobile)
      have m2 := chanSlotCount_ite_none_le
        (u = uid ∧ DeviceGroup.Desktop = IMDeviceType.group_from ds DeviceGroup.Web)
        (s u DeviceGroup.Desktop)
      have m3 := chanSlotCount_ite_none_le
        (u = uid ∧ DeviceGroup.Web = IMDeviceType.group_from ds DeviceGroup.Web)
        (s u DeviceGroup.Web)
      omega
    | removeById uid g cid =>
      intro hm u
      have hb := hinv hm u
      rw [userChannelCount_eq_sum] at hb
      rw [userChannelCount_eq_sum]
      rw [show applyChannelOp multi (ChannelOp.removeById uid g cid) s =
            removeByChannelId s uid g cid from rfl]
      rw [removeByChannelId_state, removeByChannelId_state, removeByChannelId_state]
      have m1 := chanSlotCount_ite_none_le
        (storedIdMatches (s uid g) cid ∧ u = uid ∧ DeviceGroup.Mobile = g)
        (s u DeviceGroup.Mobile)
      have m2 := chanSlotCount_ite_none_le
        (storedIdMatches (s uid g) cid ∧ u = uid ∧ DeviceGroup.Desktop = g)
        (s u DeviceGroup.Desktop)
      have m3 := chanSlotCount_ite_none_le
        (storedIdMatches (s uid g) cid ∧ u = uid ∧ DeviceGroup.Web = g)
        (s u DeviceGroup.Web)
      omega

/-- C6 witness: the invariants instantiated at `multi = false`, the empty map
and a concrete add operation. -/
theorem session_map_exclusion_invariants_witness :
    sessionInv false emptyChannelMap ∧
    sessionInv false
      (applyChannelOp false (ChannelOp.add "100" IMDeviceType.WEB "ch-1") emptyChannelMap) := by
  have h := session_map_exclusion_invariants false emptyChannelMap
    (ChannelOp.add "100" IMDeviceType.WEB "ch-1")
    (fun _ uid => by rw [userChannelCount_eq_sum]; simp [emptyChannelMap, chanSlotCount])
  exact ⟨h.2.1, h.2.2⟩

/-- C8: `remove_by_channel_id` removes the stored handle iff its channel id
equals the argument; on a mismatch, and when the slot is empty, the whole map
is left unchanged, and in the removing case every other slot is untouched. -/
theorem remove_by_channel_id_stale_safe (s : ChannelMapState) (uid : String)
    (g : DeviceGroup) (cid : String) :
    (∀ uc, s uid g = some uc → uc.channelId = cid →
      removeByChannelId s uid g cid uid g = none ∧
      ∀ u g', ¬(u = uid ∧ g' = g) → removeByChannelId s uid g cid u g' = s u g') ∧
    (∀ uc, s uid g = some uc → uc.channelId ≠ cid →
      removeByChannelId s uid g cid = s) ∧
    (s uid g = none → removeByChannelId s uid g cid = s) := by
  refine ⟨?_, ?_, ?_⟩
  · intro uc hstore hmatch
    unfold removeByChannelId
    rw [hstore]
    simp only [hmatch, if_pos rfl]
    constructor
    · simp [updInner]
    · intro u g' hne
      unfold updInner
      by_cases hu : u = uid
      · subst hu
        have hg : g' ≠ g := fun hg => hne ⟨rfl, hg⟩
        simp [hg]
      · simp [hu]
  · intro uc hstore hmismatch
    unfold removeByChannelId
    rw [hstore]
    simp [hmismatch]
  · intro hstore
    unfold removeByChannelId
    rw [hstore]

/-- C8 witness: concrete map with one stored channel; matching id removes it,
mismatching id is a no-op. -/
theorem remove_by_channel_id_stale_safe_witness :
    (fun s : ChannelMapState =>
      removeByChannelId s "100" DeviceGroup.Web "ch-1" "100" DeviceGroup.Web = none ∧
      removeByChannelId s "100" DeviceGroup.Web "ch-2" = s)
    (fun u g => if u = "100" ∧ g = DeviceGroup.Web
      then some ⟨"ch-1", IMDeviceType.WEB, DeviceGroup.Web⟩ else none) := by
  have h := remove_by_channel_id_stale_safe
    (fun u g => if u = "100" ∧ g = DeviceGroup.Web
      then some ⟨"ch-1", IMDeviceType.WEB, DeviceGroup.Web⟩ else none)
    "100" DeviceGroup.Web
  exact ⟨(h "ch-1").1 ⟨"ch-1", IMDeviceType.WEB, DeviceGroup.Web⟩ (by simp) rfl |>.1,
    (h "ch-2").2.1 ⟨"ch-1", IMDeviceType.WEB, DeviceGroup.Web⟩ (by simp) (by simp)⟩

theorem of_eq_none_of_unrecognized (d : String)
    (h : rustToLower (rustTrim d) ∉
      (["android", "ios", "web", "mac", "win", "linux"] : List String)) :
    IMDeviceType.of d = none := by
  simp only [List.mem_cons, List.not_mem_nil, or_false, not_or] at h
  show (if (rustToLower (rustTrim d)).isEmpty = true then none
    else IMDeviceType.ALL.find? (fun t => t.typeName == rustToLower (rustTrim d))) = none
  split
  · rfl
  · rw [List.find?_eq_none]
    intro t ht
    obtain ⟨h1, h2, h3, h4, h5, h6⟩ := h
    simp only [IMDeviceType.ALL, IMDeviceType.ANDROID, IMDeviceType.IOS, IMDeviceType.WEB,
      IMDeviceType.MAC, IMDeviceType.WIN, IMDeviceType.LINUX, List.mem_cons,
      List.not_mem_nil, or_false] at ht
    rcases ht with rfl | rfl | rfl | rfl | rfl | rfl <;>
      simp only [beq_iff_eq] <;>
      first
        | exact fun he => h1 he.symm
        | exact fun he => h2 he.symm
        | exact fun he => h3 he.symm
        | exact fun he => h4 he.symm
        | exact fun he => h5 he.symm
        | exact fun he => h6 he.symm

/-- C10: on REGISTER, an unrecognized (or empty) trimmed device-type string is
not rejected: it resolves to device type `web` (group Web), and the resulting
`add_channel` evicts any stored Web-group channel of the same user and
installs the new session in the Web slot. -/
theorem register_unknown_device_defaults_web (d : String)
    (h : rustToLower (rustTrim d) ∉
      (["android", "ios", "web", "mac", "win", "linux"] : List String)) :
    resolveRegisterDevice d = IMDeviceType.WEB ∧
    (resolveRegisterDevice d).group = DeviceGroup.Web ∧
    ∀ (multi : Bool) (s : ChannelMapState) (uid nid : String) (old : UserChannel),
      s uid DeviceGroup.Web = some old →
      old ∈ (addChannel multi s uid (resolveRegisterDevice d) nid).2 ∧
      ((addChannel multi s uid (resolveRegisterDevice d) nid).1 uid DeviceGroup.Web).map
        UserChannel.channelId = some nid := by
  have hres : resolveRegisterDevice d = IMDeviceType.WEB := by
    unfold resolveRegisterDevice IMDeviceType.of_or_default
    rw [of_eq_none_of_unrecognized d h]
    split <;> rfl
  refine ⟨hres, by rw [hres]; rfl, ?_⟩
  intro multi s uid nid old hold
  rw [hres]
  constructor
  · exact addChannel_kicks_same_group multi s uid IMDeviceType.WEB nid old hold
  · rw [addChannel_state_inner]
    simp [IMDeviceType.WEB]

/-- C10 witness: the concrete unrecognized device string "blackberry". -/
theorem register_unknown_device_defaults_web_witness :
    resolveRegisterDevice "blackberry" = IMDeviceType.WEB ∧
    (resolveRegisterDevice "blackberry").group = DeviceGroup.Web := by
  have h := register_unknown_device_defaults_web "blackberry" (by decide)
  exact ⟨h.1, h.2.1⟩

/-! ### Broker consumer startup and reconnection (im-connect/src/mq.rs)

`run_consumer_once` is reduced to the outcome it reports to `run_consumer`;
the exclusive queue declaration (lines 204-243) classifies the broker error
string, and `run_consumer` (lines 23-55) reacts to each outcome of
`run_consumer_once`.  Rust `str::contains` is modelled as list-infix on the
character list. -/

def containsSubstr (s pat : String) : Bool :=
  decide (pat.data <:+: s.data)

/-- The error handling of the exclusive `queue_declare` in
`run_consumer_once`: a RESOURCE_LOCKED / 405 reply makes the function return
an error naming the conflicting queue. -/
def handleQueueDeclare (queueName : String) (declareResult : Except String Unit) :
    Except String Unit :=
  match declareResult with
  | Except.ok _ => Except.ok ()
  | Except.error e =>
    if containsSubstr e "RESOURCE_LOCKED" || containsSubstr e "405" then
      Except.error ("队列 " ++ queueName ++ " 已被其他连接独占使用。请确保没有其他 im-connect 实例使用相同的 broker_id (" ++
        queueName ++ ")，或等待其他实例关闭后重试")
    else if containsSubstr e "NOT_FOUND" || containsSubstr e "404" then
      Except.error ("队列 " ++ queueName ++ " 创建失败: " ++ e)
    else
      Except.error ("队列 " ++ queueName ++ " 声明失败: " ++ e)

inductive ConsumerAction where
  | exitNonZero
  | reconnectAfter (delaySecs : Nat)
deriving DecidableEq, Repr

def MAX_RETRY_DELAY_SECS : Nat := 60

/-- One iteration of the `run_consumer` retry loop: given the retry count so
far and the outcome of `run_consumer_once`, yields the action taken and the
new retry count.  On `Ok` the loop sleeps 5 s and reconnects (resetting the
count); on `Err` it increments the count and reconnects after
`min(60, 2^(min(count-1, 5)))` seconds.  The loop never exits. -/
def runConsumerStep (retryCount : Nat) (result : Except String Unit) :
    ConsumerAction × Nat :=
  match result with
  | Except.ok _ => (ConsumerAction.reconnectAfter 5, 0)
  | Except.error _ =>
    let retryCount1 := retryCount + 1
    (ConsumerAction.reconnectAfter
      (min MAX_RETRY_DELAY_SECS (2 ^ (min (retryCount1 - 1) 5))), retryCount1)

/-- C1 counterexample: a RESOURCE_LOCKED queue declaration does not terminate
the process; on the first failure `run_consumer` schedules a reconnect after
1 second (2^0), contradicting "does not retry the connection and the process
exits non-zero". -/
theorem resource_locked_retries_counterexample :
    (runConsumerStep 0
        (handleQueueDeclare "node-1" (Except.error "RESOURCE_LOCKED"))).1 =
      ConsumerAction.reconnectAfter 1 ∧
    ConsumerAction.reconnectAfter 1 ≠ ConsumerAction.exitNonZero := by
  constructor
  · rfl
  · decide

theorem string_data_append (a b : String) : (a ++ b).data = a.data ++ b.data := rfl

/-- C1 amended: a RESOURCE_LOCKED reply to the exclusive queue declaration
makes `run_consumer_once` return an error whose message names the conflicting
queue, and `run_consumer` treats it like any other failure: it reconnects
after `min(60, 2^(min(retries, 5)))` seconds; no outcome of
`run_consumer_once` ever makes the loop exit. -/
theorem resource_locked_reconnects_with_backoff (queueName e : String)
    (retryCount : Nat) (h : containsSubstr e "RESOURCE_LOCKED" = true) :
    (∃ msg, handleQueueDeclare queueName (Except.error e) = Except.error msg ∧
      containsSubstr msg queueName = true) ∧
    (runConsumerStep retryCount (handleQueueDeclare queueName (Except.error e))).1 =
      ConsumerAction.reconnectAfter (min 60 (2 ^ (min retryCount 5))) ∧
    (∀ (rc : Nat) (r : Except String Unit),
      (runConsumerStep rc r).1 ≠ ConsumerAction.exitNonZero) := by
  have hmsg : handleQueueDeclare queueName (Except.error e) =
      Except.error ("队列 " ++ queueName ++ " 已被其他连接独占使用。请确保没有其他 im-connect 实例使用相同的 broker_id (" ++
        queueName ++ ")，或等待其他实例关闭后重试") := by
    simp [handleQueueDeclare, h]
  refine ⟨⟨_, hmsg, ?_⟩, ?_, ?_⟩
  · unfold containsSubstr
    rw [decide_eq_true_iff]
    refine ⟨"队列 ".data, (" 已被其他连接独占使用。请确保没有其他 im-connect 实例使用相同的 broker_id (" ++
      queueName ++ ")，或等待其他实例关闭后重试").data, ?_⟩
    simp [string_data_append, List.append_assoc]
  · rw [hmsg]
    unfold runConsumerStep MAX_RETRY_DELAY_SECS
    simp
  · intro rc r
    cases r <;> simp [runConsumerStep]

/-- C1 amended witness: queue "node-1", raw broker error "RESOURCE_LOCKED",
first retry. -/
theorem resource_locked_reconnects_with_backoff_witness :
    (runConsumerStep 0
        (handleQueueDeclare "node-1" (Except.error "RESOURCE_LOCKED"))).1 =
      ConsumerAction.reconnectAfter (min 60 (2 ^ (min 0 5))) :=
  (resource_locked_reconnects_with_backoff "node-1" "RESOURCE_LOCKED" 0 (by decide)).2.1

/-! ### A small JSON value model

`serde_json::Value` as far as the claims inspect it.  A JSON string carries,
alongside its characters, the value an external `serde_json::from_str` on it
would yield (`none` when the characters are not valid JSON); this models the
code's re-parsing of string-embedded JSON without embedding a parser. -/

inductive Json where
  | jnull
  | jbool (b : Bool)
  | jnum (n : Int)
  | jstr (s : String) (reparsed : Option Json)
  | jarr (elems : List Json)
  | jobj (fields : List (String × Json))

/-- `Value::get(key)`: field lookup on an object, `None` otherwise. -/
def jget (j : Json) (key : String) : Option Json :=
  match j with
  | Json.jobj fields => (fields.find? (fun p => p.1 == key)).map Prod.snd
  | _ => none

/-- `Value::as_i64`. -/
def asI64 (j : Json) : Option Int :=
  match j with
  | Json.jnum n => some n
  | _ => none

/-- `Value::as_str`. -/
def asStr (j : Json) : Option String :=
  match j with
  | Json.jstr s _ => some s
  | _ => none

/-- `as_str` followed by `serde_json::from_str(..).ok()`. -/
def strReparse (j : Json) : Option Json :=
  match j with
  | Json.jstr _ r => r
  | _ => none

/-! ### Offline queue (im-share/src/redis.rs) and drain on connect
(im-connect/src/handlers/websocket.rs, lines 276-425)

An offline entry is the `serde_json::from_str` view of the stored string
(`none` = not valid JSON; such entries are still delivered).  The per-user
Redis lists are a total function from open_id to entry list. -/

def OfflineStore := String → List (Option Json)

/-- `RedisClient::add_offline_message`: RPUSH, appending the new message on
the right of the recipient's list (the 7-day EXPIRE has no functional
content here). -/
def addOfflineMessage (store : OfflineStore) (openId : String) (message : Option Json) :
    OfflineStore :=
  fun k => if k = openId then store k ++ [message] else store k

/-- `RedisClient::get_and_clear_offline_messages`: LRANGE 0 -1 (left to
right, i.e. oldest first) then DEL; returns the drained list and the store
afterwards. -/
def getAndClearOfflineMessages (store : OfflineStore) (openId : String) :
    List (Option Json) × OfflineStore :=
  (store openId, fun k => if k = openId then [] else store k)

/-- The call-invite test of the drain loop: `type == "call_invite"` or
`message_content_type == 4`. -/
def isCallInviteEntry (j : Json) : Bool :=
  ((((jget j "type").bind asStr).map (fun t => t == "call_invite")).getD false) ||
  ((((jget j "message_content_type").bind asI64).map (fun t => t == 4)).getD false)

/-- The drain loop's timestamp extraction: `timestamp` / `timestamp_ms` /
`created_at`, with a fallback to a `timestamp` inside the string-embedded
`message` field. -/
def entryTimestamp (j : Json) : Option Int :=
  ((((jget j "timestamp").orElse (fun _ => jget j "timestamp_ms")).orElse
      (fun _ => jget j "created_at")).bind asI64).orElse
    (fun _ => ((jget j "message").bind strReparse).bind
      (fun mj => (jget mj "timestamp").bind asI64))

/-- The drain loop's timeout extraction, defaulting to 60 seconds. -/
def entryTimeout (j : Json) : Int :=
  (((jget j "timeout").bind asI64).orElse
    (fun _ => ((jget j "message").bind strReparse).bind
      (fun mj => (jget mj "timeout").bind asI64))).getD 60

/-- `should_skip` of the drain loop: a call invite is skipped when expired
(`now > timestamp + timeout*1000`) or when no timestamp can be found;
everything else (including unparseable entries) is delivered. -/
def shouldSkipOfflineEntry (now : Int) (entry : Option Json) : Bool :=
  match entry with
  | none => false
  | some j =>
    if isCallInviteEntry j then
      match entryTimestamp j with
      | some ts => decide (now > ts + entryTimeout j * 1000)
      | none => true
    else false

/-- The delivery loop over the drained entries (sends in list order,
skipping per `shouldSkipOfflineEntry`). -/
def drainDeliver (now : Int) : List (Option Json) → List (Option Json)
  | [] => []
  | e :: rest =>
    if shouldSkipOfflineEntry now e then drainDeliver now rest
    else e :: drainDeliver now rest

/-- The claim-side characterization of a dropped entry: a call invite that is
expired or carries no timestamp. -/
def expiredOrUntimedCallInvite (now : Int) (entry : Option Json) : Bool :=
  match entry with
  | none => false
  | some j =>
    isCallInviteEntry j &&
      (match entryTimestamp j with
       | none => true
       | some ts => decide (now > ts + entryTimeout j * 1000))

theorem shouldSkip_eq_expiredOrUntimed (now : Int) (e : Option Json) :
    shouldSkipOfflineEntry now e = expiredOrUntimedCallInvite now e := by
  cases e with
  | none => rfl
  | some j =>
    unfold shouldSkipOfflineEntry expiredOrUntimedCallInvite
    cases h : isCallInviteEntry j <;> cases ht : entryTimestamp j <;> simp [h, ht]

theorem drainDeliver_eq_filter (now : Int) (l : List (Option Json)) :
    drainDeliver now l = l.filter (fun e => !(expiredOrUntimedCallInvite now e)) := by
  induction l with
  | nil => rfl
  | cons e rest ih =>
    unfold drainDeliver
    rw [shouldSkip_eq_expiredOrUntimed]
    cases h : expiredOrUntimedCallInvite now e <;>
      simp [List.filter_cons, h, ih]

/-- C7: the offline drain is destructive and ordered.  RPUSH appends on the
right, the drain returns exactly the stored list oldest-first, afterwards the
list is empty, and the deliveries are exactly the stored entries in append
order minus the call invites that are expired (`now > timestamp +
(timeout ?: 60)·1000`) or carry no timestamp. -/
theorem offline_drain_destructive_ordered (store : OfflineStore) (uid : String)
    (now : Int) (m : Option Json) :
    (getAndClearOfflineMessages (addOfflineMessage store uid m) uid).1 =
      store uid ++ [m] ∧
    (getAndClearOfflineMessages store uid).1 = store uid ∧
    (getAndClearOfflineMessages store uid).2 uid = [] ∧
    drainDeliver now (getAndClearOfflineMessages store uid).1 =
      (store uid).filter (fun e => !(expiredOrUntimedCallInvite now e)) ∧
    List.Sublist (drainDeliver now (getAndClearOfflineMessages store uid).1) (store uid) := by
  refine ⟨?_, rfl, ?_, ?_, ?_⟩
  · simp [getAndClearOfflineMessages, addOfflineMessage]
  · simp [getAndClearOfflineMessages]
  · exact drainDeliver_eq_filter now (store uid)
  · rw [show (getAndClearOfflineMessages store uid).1 = store uid from rfl,
      drainDeliver_eq_filter]
    exact List.filter_sublist _

/-! ### Fan-out API data model (im-server/src/model, im-share/src/model) -/

/-- Rust `str::parse::<u64>()`: optional leading `+`, then decimal digits,
non-empty, value below 2^64. -/
def parseU64Digits (l : List Char) : Option Nat :=
  if l ≠ [] ∧ l.all Char.isDigit then
    let v := l.foldl (fun acc c => acc * 10 + (c.toNat - 48)) 0
    if v < 2 ^ 64 then some v else none
  else none

def parseU64 (s : String) : Option Nat :=
  match s.data with
  | '+' :: rest => parseU64Digits rest
  | l => parseU64Digits l

structure User where
  id : Nat
  openId : Option String
  name : String
  email : String
  passwordHash : Option String
  fileName : Option String
  abstractField : Option String
  phone : Option String
  status : Option Int
  gender : Option Int
deriving DecidableEq, Repr

/-- `User::get_mqtt_id`: the numeric form of open_id when it parses as u64,
otherwise the database id. -/
def User.getMqttId (u : User) : Nat :=
  match u.openId with
  | some oid =>
    match parseU64 oid with
    | some n => n
    | none => u.id
  | none => u.id

/-- `User::get_external_id`: the open_id when present and non-empty,
otherwise the database id as a string. -/
def User.getExternalId (u : User) : String :=
  match u.openId with
  | some oid => if !oid.isEmpty then oid else toString u.id
  | none => toString u.id

structure ImSingleMessage where
  messageId : String
  fromId : String
  toId : String
  messageBody : String
  messageTime : Int
  messageContentType : Int
  readStatus : Int
  extra : Option String
  delFlag : Int
  sequence : Int
  messageRandom : Option String
  createTime : Option Int
  updateTime : Option Int
  version : Option Int
  replyTo : Option String
  toType : Option String
  fileUrl : Option String
  fileName : Option String
  fileType : Option String
deriving DecidableEq, Repr

structure ImGroupMessage where
  messageId : String
  groupId : String
  fromId : String
  messageBody : String
  messageTime : Int
  messageContentType : Int
  extra : Option String
  delFlag : Int
  sequence : Option Int
  messageRandom : Option String
  createTime : Int
  updateTime : Option Int
  version : Option Int
  replyTo : Option String
deriving DecidableEq, Repr

structure ChatMessage where
  messageId : String
  fromUserId : String
  toUserId : String
  message : String
  timestampMs : Int
  fileUrl : Option String
  fileName : Option String
  fileType : Option String
  chatType : Option Int
deriving DecidableEq, Repr

inductive ErrorCode where
  | NotFound
  | InvalidInput
  | Internal
  | Database
  | Unauthorized
  | Forbidden
deriving DecidableEq, Repr

def mqttUserTopic (userId : String) : String :=
  "user/" ++ userId ++ "/inbox"

/-! ### POST /api/im/messages/single
(im-server/src/handlers/im_message_handler.rs, `send_single_message`)

The handler is embedded as a pure function over an environment of oracle
results: the user-store lookups, the JSON parser, and the outcomes the
database / broker / Redis returned.  Its value records the externally visible
effects of the request: the persisted row, the attempted MQTT publish, the
attempted Redis RPUSH (the encoded ChatMessage payload is identified with the
ChatMessage value, as `serde_json::to_vec` followed by `String::from_utf8` is
injective and never fails on it), the chat-record upserts, and the HTTP
response. -/

structure SendSingleMessageRequest where
  fromId : String
  toId : String
  messageBody : String
  messageContentType : Int
  extra : Option String
  replyTo : Option String
deriving DecidableEq, Repr

structure SingleSendEnv where
  /-- `UserService::get_by_open_id` -/
  byOpenId : String → Option User
  /-- `UserService::get_by_name` -/
  byName : String → Option User
  /-- `serde_json::from_str::<Value>` -/
  parseJson : String → Option Json
  /-- outcome of `save_single_message` (`none` = `Ok(())`) -/
  saveSingleResult : Option ErrorCode
  /-- `subscription_service.get_subscription_ids` (in-memory mirror), by db id -/
  memSubs : Nat → List String
  /-- `subscriptions` rows with `created_at` within the last 24 hours, by db id -/
  dbSubs : Nat → List String
  /-- outcome of `encode_message` -/
  encodeOk : Bool
  /-- outcome of `publisher.publish` -/
  publishOk : Bool
  /-- outcome of `add_offline_message` -/
  redisOk : Bool
  /-- wall clock in milliseconds -/
  now : Int
  /-- the freshly generated `Uuid::new_v4` message id -/
  newMessageId : String
  /-- the freshly generated `message_random` -/
  newMessageRandom : String

inductive SingleSendResponse where
  | err (status : Nat) (code : ErrorCode) (message : String)
  | ok (messageId : Option String) (storedOnly : Option Bool)
deriving DecidableEq, Repr

structure SingleSendEffects where
  saved : Option ImSingleMessage
  publishAttempt : Option (String × ChatMessage)
  offlinePush : Option (String × ChatMessage)
  chatUpserts : List (String × Int × String × String)
  response : SingleSendResponse
deriving DecidableEq, Repr

def noSingleEffects (r : SingleSendResponse) : SingleSendEffects :=
  { saved := none, publishAttempt := none, offlinePush := none, chatUpserts := [],
    response := r }

/-- The `get_by_open_id` / `get_by_name` fallback chain used for both
participants. -/
def lookupUserByEither (env : SingleSendEnv) (idStr : String) : Option User :=
  match env.byOpenId idStr with
  | some u => some u
  | none => env.byName idStr

/-- The subscription resolution: the in-memory mirror, warmed from the
24-hour-fresh database rows when empty (`add_subscription_id` inserts each
row unless already present). -/
def warmedSubscriptionIds (mem dbRows : List String) : List String :=
  if mem.isEmpty then
    dbRows.foldl (fun acc sid => if acc.contains sid then acc else acc ++ [sid]) mem
  else mem

/-- Extraction of `file_url` / `file_name` / `file_type` from the request's
`extra` JSON. -/
def extraFileField (env : SingleSendEnv) (extra : Option String) (key : String) :
    Option String :=
  match extra with
  | some es => ((env.parseJson es).bind (fun j => (jget j key).bind asStr))
  | none => none

def debugErrorCode (e : ErrorCode) : String :=
  match e with
  | ErrorCode.NotFound => "NotFound"
  | ErrorCode.InvalidInput => "InvalidInput"
  | ErrorCode.Internal => "Internal"
  | ErrorCode.Database => "Database"
  | ErrorCode.Unauthorized => "Unauthorized"
  | ErrorCode.Forbidden => "Forbidden"

def sendSingleMessage (env : SingleSendEnv) (req : SendSingleMessageRequest) :
    SingleSendEffects :=
  if req.fromId.isEmpty || req.toId.isEmpty then
    noSingleEffects (SingleSendResponse.err 400 ErrorCode.InvalidInput "from_id 和 to_id 不能为空")
  else if req.messageBody.isEmpty then
    noSingleEffects (SingleSendResponse.err 400 ErrorCode.InvalidInput "消息内容不能为空")
  else
    match lookupUserByEither env req.fromId with
    | none => noSingleEffects (SingleSendResponse.err 400 ErrorCode.NotFound "发送者用户不存在")
    | some fromUser =>
      match lookupUserByEither env req.toId with
      | none => noSingleEffects (SingleSendResponse.err 400 ErrorCode.NotFound "接收者用户不存在")
      | some toUser =>
        let fromOpenId := fromUser.getExternalId
        let toOpenId := toUser.getExternalId
        let now := env.now
        let messageId := env.newMessageId
        let message : ImSingleMessage :=
          { messageId := messageId, fromId := fromOpenId, toId := toOpenId,
            messageBody := req.messageBody, messageTime := now,
            messageContentType := req.messageContentType, readStatus := 0,
            extra := req.extra, delFlag := 1, sequence := now,
            messageRandom := some env.newMessageRandom, createTime := some now,
            updateTime := some now, version := some 1, replyTo := req.replyTo,
            toType := some "User", fileUrl := none, fileName := none, fileType := none }
        match env.saveSingleResult with
        | some e =>
          noSingleEffects (SingleSendResponse.err 400 e
            ("发送消息失败: " ++ debugErrorCode e))
        | none =>
          let fileUrl := extraFileField env req.extra "file_url"
          let fileName := extraFileField env req.extra "file_name"
          let fileType := extraFileField env req.extra "file_type"
          let toMqttId := toUser.getMqttId
          let chatMessage : ChatMessage :=
            { messageId := messageId, fromUserId := fromOpenId, toUserId := toOpenId,
              message := req.messageBody, timestampMs := now, fileUrl := fileUrl,
              fileName := fileName, fileType := fileType, chatType := some 1 }
          let subscriptionIds :=
            warmedSubscriptionIds (env.memSubs toUser.id) (env.dbSubs toUser.id)
          let isOnline := !subscriptionIds.isEmpty
          let isCallInvite := req.messageContentType == 4
          if isCallInvite && !isOnline then
            { saved := some message, publishAttempt := none, offlinePush := none,
              chatUpserts := [],
              response := SingleSendResponse.ok (some messageId) (some true) }
          else
            let topic := mqttUserTopic (toString toMqttId)
            let publishAttempt :=
              if env.encodeOk then some (topic, chatMessage) else none
            let shouldStoreToRedis := !(isCallInvite && !isOnline)
            let offlinePush :=
              if env.encodeOk && shouldStoreToRedis then some (toOpenId, chatMessage)
              else none
            let pair :=
              if fromOpenId < toOpenId then (fromOpenId, toOpenId) else (toOpenId, fromOpenId)
            let chatId := "single_" ++ pair.1 ++ "_" ++ pair.2
            { saved := some message, publishAttempt := publishAttempt,
              offlinePush := offlinePush,
              chatUpserts := [(chatId, 1, fromOpenId, toOpenId),
                              (chatId, 1, toOpenId, fromOpenId)],
              response := SingleSendResponse.ok none none }

/-- The server-side effect of the Redis RPUSH recorded in
`SingleSendEffects.offlinePush` on a store of ChatMessage payloads. -/
def applyOfflinePush (p : Option (String × ChatMessage))
    (store : String → List ChatMessage) : String → List ChatMessage :=
  match p with
  | none => store
  | some (k, v) => fun k' => if k' = k then store k' ++ [v] else store k'

/-- C2: a call invite (`message_content_type = 4`) to a recipient with no
routable subscription (empty in-memory mirror and no 24-hour-fresh
`subscriptions` rows) is persisted to `im_single_message` but short-circuits:
the response is success with `stored_only: true` carrying the generated
message id, no broker publish is attempted, and the recipient's offline list
is left unchanged. -/
theorem call_invite_offline_short_circuit (env : SingleSendEnv)
    (req : SendSingleMessageRequest) (fu tu : User)
    (hfrom_ne : req.fromId.isEmpty = false)
    (hto_ne : req.toId.isEmpty = false)
    (hbody_ne : req.messageBody.isEmpty = false)
    (hfrom : lookupUserByEither env req.fromId = some fu)
    (hto : lookupUserByEither env req.toId = some tu)
    (hsave : env.saveSingleResult = none)
    (hct : req.messageContentType = 4)
    (hmem : env.memSubs tu.id = [])
    (hdb : env.dbSubs tu.id = []) :
    (sendSingleMessage env req).response =
      SingleSendResponse.ok (some env.newMessageId) (some true) ∧
    (sendSingleMessage env req).publishAttempt = none ∧
    (sendSingleMessage env req).offlinePush = none ∧
    (∀ store, applyOfflinePush (sendSingleMessage env req).offlinePush store = store) ∧
    (sendSingleMessage env req).saved = some
      { messageId := env.newMessageId, fromId := fu.getExternalId,
        toId := tu.getExternalId, messageBody := req.messageBody,
        messageTime := env.now, messageContentType := req.messageContentType,
        readStatus := 0, extra := req.extra, delFlag := 1, sequence := env.now,
        messageRandom := some env.newMessageRandom, createTime := some env.now,
        updateTime := some env.now, version := some 1, replyTo := req.replyTo,
        toType := some "User", fileUrl := none, fileName := none, fileType := none } := by
  have heff : sendSingleMessage env req =
      { saved := some
          { messageId := env.newMessageId, fromId := fu.getExternalId,
            toId := tu.getExternalId, messageBody := req.messageBody,
            messageTime := env.now, messageContentType := req.messageContentType,
            readStatus := 0, extra := req.extra, delFlag := 1, sequence := env.now,
            messageRandom := some env.newMessageRandom, createTime := some env.now,
            updateTime := some env.now, version := some 1, replyTo := req.replyTo,
            toType := some "User", fileUrl := none, fileName := none, fileType := none },
        publishAttempt := none, offlinePush := none, chatUpserts := [],
        response := SingleSendResponse.ok (some env.newMessageId) (some true) } := by
    unfold sendSingleMessage
    simp [hfrom_ne, hto_ne, hbody_ne, hfrom, hto, hsave, hct, hmem, hdb,
      warmedSubscriptionIds]
  rw [heff]
  exact ⟨rfl, rfl, rfl, fun store => rfl, rfl⟩

def userAlice : User :=
  { id := 1, openId := some "100", name := "alice", email := "alice@example.com",
    passwordHash := none, fileName := none, abstractField := none, phone := none,
    status := some 1, gender := some 3 }

def userBob : User :=
  { id := 2, openId := some "200", name := "bob", email := "bob@example.com",
    passwordHash := none, fileName := none, abstractField := none, phone := none,
    status := some 1, gender := some 3 }

def demoLookup : String → Option User :=
  fun s => if s = "100" then some userAlice else if s = "200" then some userBob else none

def envBase : SingleSendEnv :=
  { byOpenId := demoLookup, byName := fun _ => none, parseJson := fun _ => none,
    saveSingleResult := none, memSubs := fun _ => [], dbSubs := fun _ => [],
    encodeOk := true, publishOk := true, redisOk := true, now := 1000,
    newMessageId := "mid-1", newMessageRandom := "rand-1" }

def reqCallInvite : SendSingleMessageRequest :=
  { fromId := "100", toId := "200", messageBody := "ring",
    messageContentType := 4, extra := none, replyTo := none }

def reqDemo : SendSingleMessageRequest :=
  { fromId := "100", toId := "200", messageBody := "hi",
    messageContentType := 1, extra := none, replyTo := none }

/-- C2 witness: the concrete scenario S3 (offline recipient, call invite). -/
theorem call_invite_offline_short_circuit_witness :
    (sendSingleMessage envBase reqCallInvite).response =
      SingleSendResponse.ok (some envBase.newMessageId) (some true) ∧
    (sendSingleMessage envBase reqCallInvite).publishAttempt = none ∧
    (sendSingleMessage envBase reqCallInvite).offlinePush = none := by
  have h := call_invite_offline_short_circuit envBase reqCallInvite userAlice userBob
    rfl rfl rfl rfl rfl rfl rfl rfl rfl
  exact ⟨h.1, h.2.1, h.2.2.1⟩

/-- C3: on every request that persists, encodes, and does not take the
call-invite short-circuit, the encoded payload is RPUSHed onto the offline
list keyed by the recipient's external id regardless of whether the broker
publish succeeded or failed. -/
theorem offline_backup_on_both_publish_paths (env : SingleSendEnv)
    (req : SendSingleMessageRequest) (fu tu : User)
    (hfrom_ne : req.fromId.isEmpty = false)
    (hto_ne : req.toId.isEmpty = false)
    (hbody_ne : req.messageBody.isEmpty = false)
    (hfrom : lookupUserByEither env req.fromId = some fu)
    (hto : lookupUserByEither env req.toId = some tu)
    (hsave : env.saveSingleResult = none)
    (hencode : env.encodeOk = true)
    (hnoshort : (req.messageContentType == 4 &&
      (warmedSubscriptionIds (env.memSubs tu.id) (env.dbSubs tu.id)).isEmpty) = false) :
    ∀ b : Bool,
      (sendSingleMessage { env with publishOk := b } req).offlinePush =
        some (tu.getExternalId,
          { messageId := env.newMessageId, fromUserId := fu.getExternalId,
            toUserId := tu.getExternalId, message := req.messageBody,
            timestampMs := env.now,
            fileUrl := extraFileField env req.extra "file_url",
            fileName := extraFileField env req.extra "file_name",
            fileType := extraFileField env req.extra "file_type",
            chatType := some 1 }) ∧
      (∀ store k, k = tu.getExternalId →
        applyOfflinePush (sendSingleMessage { env with publishOk := b } req).offlinePush
          store k = store k ++
          [{ messageId := env.newMessageId, fromUserId := fu.getExternalId,
             toUserId := tu.getExternalId, message := req.messageBody,
             timestampMs := env.now,
             fileUrl := extraFileField env req.extra "file_url",
             fileName := extraFileField env req.extra "file_name",
             fileType := extraFileField env req.extra "file_type",
             chatType := some 1 }]) := by
  intro b
  have hirr : sendSingleMessage { env with publishOk := b } req = sendSingleMessage env req :=
    rfl
  have hpush : (sendSingleMessage env req).offlinePush =
      some (tu.getExternalId,
        { messageId := env.newMessageId, fromUserId := fu.getExternalId,
          toUserId := tu.getExternalId, message := req.messageBody,
          timestampMs := env.now,
          fileUrl := extraFileField env req.extra "file_url",
          fileName := extraFileField env req.extra "file_name",
          fileType := extraFileField env req.extra "file_type",
          chatType := some 1 }) := by
    unfold sendSingleMessage
    simp only [hfrom_ne, hto_ne, hbody_ne, hfrom, hto, hsave, Bool.or_self,
      Bool.false_or, Bool.or_false, if_false]
    simp [hnoshort, hencode, extraFileField, Bool.not_not]
  rw [hirr]
  refine ⟨hpush, ?_⟩
  intro store k hk
  rw [hpush]
  subst hk
  simp [applyOfflinePush]

/-- C3 witness: a plain text message (content type 1) at `publishOk = true`
and `publishOk = false` both RPUSH the payload for recipient "200". -/
theorem offline_backup_on_both_publish_paths_witness :
    ((sendSingleMessage { envBase with publishOk := true } reqDemo).offlinePush =
      some ("200",
        { messageId := "mid-1", fromUserId := "100", toUserId := "200",
          message := "hi", timestampMs := 1000, fileUrl := none, fileName := none,
          fileType := none, chatType := some 1 })) ∧
    ((sendSingleMessage { envBase with publishOk := false } reqDemo).offlinePush =
      some ("200",
        { messageId := "mid-1", fromUserId := "100", toUserId := "200",
          message := "hi", timestampMs := 1000, fileUrl := none, fileName := none,
          fileType := none, chatType := some 1 })) := by
  have h := offline_backup_on_both_publish_paths envBase reqDemo userAlice userBob
    rfl rfl rfl rfl rfl rfl rfl (by decide)
  exact ⟨(h true).1, (h false).1⟩

def envSaveFails : SingleSendEnv := { envBase with saveSingleResult := some ErrorCode.Database }

/-- C5 counterexample: when persistence fails, the handler responds with HTTP
status 400 (BAD_REQUEST), not 500 as claimed
(im-server/src/handlers/im_message_handler.rs line 449). -/
theorem persistence_failure_status_counterexample :
    (sendSingleMessage envSaveFails reqDemo).response =
      SingleSendResponse.err 400 ErrorCode.Database "发送消息失败: Database" ∧
    (400 : Nat) ≠ 500 := by
  constructor
  · rfl
  · decide

/-- C5 amended: when saving to `im_single_message` fails, the handler
responds with HTTP status 400 carrying the persistence error code, and at
that point nothing has been persisted, no broker publish has been attempted,
and nothing has been appended to the offline queue. -/
theorem persistence_failure_aborts_with_400 (env : SingleSendEnv)
    (req : SendSingleMessageRequest) (fu tu : User) (e : ErrorCode)
    (hfrom_ne : req.fromId.isEmpty = false)
    (hto_ne : req.toId.isEmpty = false)
    (hbody_ne : req.messageBody.isEmpty = false)
    (hfrom : lookupUserByEither env req.fromId = some fu)
    (hto : lookupUserByEither env req.toId = some tu)
    (hsave : env.saveSingleResult = some e) :
    (sendSingleMessage env req).response =
      SingleSendResponse.err 400 e ("发送消息失败: " ++ debugErrorCode e) ∧
    (sendSingleMessage env req).saved = none ∧
    (sendSingleMessage env req).publishAttempt = none ∧
    (sendSingleMessage env req).offlinePush = none ∧
    (∀ store, applyOfflinePush (sendSingleMessage env req).offlinePush store = store) := by
  have heff : sendSingleMessage env req =
      noSingleEffects (SingleSendResponse.err 400 e ("发送消息失败: " ++ debugErrorCode e)) := by
    unfold sendSingleMessage
    simp [hfrom_ne, hto_ne, hbody_ne, hfrom, hto, hsave]
  rw [heff]
  exact ⟨rfl, rfl, rfl, rfl, fun store => rfl⟩

/-- C5 amended witness: a concrete database failure. -/
theorem persistence_failure_aborts_with_400_witness :
    (sendSingleMessage envSaveFails reqDemo).saved = none ∧
    (sendSingleMessage envSaveFails reqDemo).publishAttempt = none ∧
    (sendSingleMessage envSaveFails reqDemo).offlinePush = none := by
  have h := persistence_failure_aborts_with_400 envSaveFails reqDemo userAlice userBob
    ErrorCode.Database rfl rfl rfl rfl rfl rfl
  exact ⟨h.2.1, h.2.2.1, h.2.2.2.1⟩

/-- C9 counterexample: a successful ordinary send (no call-invite
short-circuit) responds with a body that contains only `status: ok` — the
generated message_id is absent (im-server/src/handlers/im_message_handler.rs
line 443), contradicting the claim that every successful response carries the
message id. -/
theorem success_body_lacks_message_id_counterexample :
    (sendSingleMessage envBase reqDemo).response = SingleSendResponse.ok none none ∧
    (sendSingleMessage envBase reqDemo).saved.isSome = true ∧
    SingleSendResponse.ok (none : Option String) (none : Option Bool) ≠
      SingleSendResponse.ok (some "mid-1") none := by
  refine ⟨rfl, rfl, by decide⟩

/-- C9 amended: every successful response carries `status: ok`; the generated
message id (together with `stored_only: true`) is included only when the
call-invite ephemerality short-circuit applied, and the ordinary success body
carries neither. -/
theorem success_body_shape (env : SingleSendEnv)
    (req : SendSingleMessageRequest) (fu tu : User)
    (hfrom_ne : req.fromId.isEmpty = false)
    (hto_ne : req.toId.isEmpty = false)
    (hbody_ne : req.messageBody.isEmpty = false)
    (hfrom : lookupUserByEither env req.fromId = some fu)
    (hto : lookupUserByEither env req.toId = some tu)
    (hsave : env.saveSingleResult = none) :
    ((req.messageContentType == 4 &&
        (warmedSubscriptionIds (env.memSubs tu.id) (env.dbSubs tu.id)).isEmpty) = true →
      (sendSingleMessage env req).response =
        SingleSendResponse.ok (some env.newMessageId) (some true)) ∧
    ((req.messageContentType == 4 &&
        (warmedSubscriptionIds (env.memSubs tu.id) (env.dbSubs tu.id)).isEmpty) = false →
      (sendSingleMessage env req).response = SingleSendResponse.ok none none) := by
  constructor
  · intro hshort
    unfold sendSingleMessage
    simp only [hfrom_ne, hto_ne, hbody_ne, hfrom, hto, hsave, Bool.or_self,
      Bool.false_or, Bool.or_false, if_false]
    simp [hshort, Bool.not_not]
  · intro hshort
    unfold sendSingleMessage
    simp only [hfrom_ne, hto_ne, hbody_ne, hfrom, hto, hsave, Bool.or_self,
      Bool.false_or, Bool.or_false, if_false]
    simp [hshort, Bool.not_not]

/-- C9 amended witness: the ordinary success body for a concrete send. -/
theorem success_body_shape_witness :
    (sendSingleMessage envBase reqDemo).response = SingleSendResponse.ok none none := by
  have h := success_body_shape envBase reqDemo userAlice userBob rfl rfl rfl rfl rfl rfl
  exact h.2 (by decide)

/-! ### Chat records (im-server/src/service/im_chat_service.rs) and the
group-send chat-type decision
(im-server/src/handlers/im_message_handler.rs, `send_group_message`)

The `im_chat` table is a row list under the repaired composite-key schema
(`(chat_id, owner_id, chat_type)` unique); SQL queries become `find?` and
`map` over it, run sequentially (no concurrent writers). -/

structure ImChat where
  chatId : String
  chatType : Int
  ownerId : Option String
  toId : String
  isMute : Int
  isTop : Int
  sequence : Option Int
  readSequence : Option Int
  remark : Option String
  createTime : Option Int
  updateTime : Option Int
  delFlag : Option Int
  version : Option Int
deriving DecidableEq, Repr

/-- `(del_flag IS NULL OR del_flag = 1)`. -/
def chatLive (r : ImChat) : Bool :=
  match r.delFlag with
  | none => true
  | some d => d == 1

/-- `SELECT .. WHERE chat_id = ? AND owner_id = ? AND chat_type = ?` (live). -/
def findChatExact (db : List ImChat) (cid owner : String) (ct : Int) : Option ImChat :=
  db.find? (fun r => r.chatId == cid && r.ownerId == some owner && r.chatType == ct &&
    chatLive r)

/-- `SELECT .. WHERE chat_id = ? AND owner_id = ? AND chat_type != ?` (live). -/
def findChatConflict (db : List ImChat) (cid owner : String) (ct : Int) : Option ImChat :=
  db.find? (fun r => r.chatId == cid && r.ownerId == some owner && !(r.chatType == ct) &&
    chatLive r)

/-- `UPDATE im_chat SET chat_type = ?, to_id = ?, update_time = ?,
version = version + 1 WHERE chat_id = ? AND owner_id = ?`. -/
def updateChatTypeToId (db : List ImChat) (cid owner : String) (ct : Int) (tid : String)
    (now : Int) : List ImChat :=
  db.map (fun r =>
    if r.chatId == cid && r.ownerId == some owner then
      { r with
        chatType := ct
        toId := tid
        updateTime := some now
        version := r.version.map (fun v => v + 1) }
    else r)

/-- Whether the INSERT would hit the composite primary key
`(chat_id, owner_id, chat_type)`. -/
def chatInsertDupKey (db : List ImChat) (cid owner : String) (ct : Int) : Bool :=
  db.any (fun r => r.chatId == cid && r.ownerId == some owner && r.chatType == ct)

/-- `ImChatService::get_or_create_chat`: exact lookup; else conflict lookup
followed by the in-place `chat_type` repair (falling back to the conflicting
row with the expected type when the re-query finds nothing); else INSERT,
with the duplicate-key recovery re-queries. -/
def getOrCreateChat (db : List ImChat) (chatId : String) (chatType : Int)
    (ownerId toId : String) (now : Int) : Except ErrorCode (ImChat × List ImChat) :=
  match findChatExact db chatId ownerId chatType with
  | some c => Except.ok (c, db)
  | none =>
    match findChatConflict db chatId ownerId chatType with
    | some conflicting =>
      let db1 := updateChatTypeToId db chatId ownerId chatType toId now
      match findChatExact db1 chatId ownerId chatType with
      | some c => Except.ok (c, db1)
      | none =>
        Except.ok ({ conflicting with
          chatType := chatType
          toId := toId
          updateTime := some now
          version := conflicting.version.map (fun v => v + 1) }, db1)
    | none =>
      if chatInsertDupKey db chatId ownerId chatType then
        match findChatExact db chatId ownerId chatType with
        | some c => Except.ok (c, db)
        | none =>
          match db.find? (fun r => r.chatId == chatId && chatLive r) with
          | some existing =>
            if existing.ownerId == some ownerId then Except.ok (existing, db)
            else Except.error ErrorCode.Database
          | none => Except.error ErrorCode.Database
      else
        let newChat : ImChat :=
          { chatId := chatId, chatType := chatType, ownerId := some ownerId,
            toId := toId, isMute := 0, isTop := 0, sequence := some 0,
            readSequence := some 0, remark := none, createTime := some now,
            updateTime := some now, delFlag := some 1, version := some 1 }
        Except.ok (newChat, db ++ [newChat])

theorem bool4_split {a b c d : Bool} (h : (a && b && c && d) = true) :
    a = true ∧ b = true ∧ c = true ∧ d = true := by
  simp only [Bool.and_eq_true] at h
  exact ⟨h.1.1.1, h.1.1.2, h.1.2, h.2⟩

theorem findChatExact_chatType {db : List ImChat} {cid owner : String} {ct : Int}
    {c : ImChat} (h : findChatExact db cid owner ct = some c) : c.chatType = ct := by
  have hp := List.find?_some h
  have := (bool4_split hp).2.2.1
  exact beq_iff_eq.mp this

/-- `get_or_create_chat` never returns a chat whose `chat_type` differs from
the expected one: an existing row with a conflicting type is repaired (or
overridden) to the expected type on every path. -/
theorem getOrCreateChat_returns_expected_type (db : List ImChat) (chatId : String)
    (chatType : Int) (ownerId toId : String) (now : Int) (c : ImChat)
    (db1 : List ImChat)
    (h : getOrCreateChat db chatId chatType ownerId toId now = Except.ok (c, db1)) :
    c.chatType = chatType := by
  unfold getOrCreateChat at h
  cases hexact : findChatExact db chatId ownerId chatType with
  | some c0 =>
    simp only [hexact] at h
    cases h
    exact findChatExact_chatType hexact
  | none =>
    simp only [hexact] at h
    cases hconf : findChatConflict db chatId ownerId chatType with
    | some conflicting =>
      simp only [hconf] at h
      cases hexact1 : findChatExact (updateChatTypeToId db chatId ownerId chatType toId now)
          chatId ownerId chatType with
      | some c1 =>
        simp only [hexact1] at h
        cases h
        exact findChatExact_chatType hexact1
      | none =>
        simp only [hexact1] at h
        cases h
        rfl
    | none =>
      simp only [hconf] at h
      by_cases hdup : chatInsertDupKey db chatId ownerId chatType = true
      · rw [if_pos hdup] at h
        cases hfind : db.find? (fun r => r.chatId == chatId && chatLive r) with
        | some existing =>
          simp only [hfind] at h
          by_cases howner : (existing.ownerId == some ownerId) = true
          · rw [if_pos howner] at h
            cases h
            -- the re-queried row would already have matched the exact or the
            -- conflict lookup, so this branch forces the type equality
            have hmem := List.mem_of_find?_eq_some hfind
            have hp := List.find?_some hfind
            simp only [Bool.and_eq_true] at hp
            have hexact' := List.find?_eq_none.mp hexact c hmem
            have hconf' := List.find?_eq_none.mp hconf c hmem
            by_cases hct : c.chatType = chatType
            · exact hct
            · exfalso
              apply hconf'
              simp [hp.1, hp.2, howner, hct]
          · rw [if_neg howner] at h
            cases h
        | none =>
          simp only [hfind] at h
          cases h
      · rw [if_neg hdup] at h
        cases h
        rfl

inductive GroupWriteTarget where
  | singleTable
  | groupTable
deriving DecidableEq, Repr

/-- `group_id` normalisation: ensure the `group_` prefix. -/
def rustStartsWith (s p : String) : Bool :=
  decide (p.data <+: s.data)

def normalizeGroupId (gid : String) : String :=
  if rustStartsWith gid "group_" then gid else "group_" ++ gid

/-- Rust `str::trim_start_matches`: repeatedly strip the prefix. -/
def trimStartMatchesAux : Nat → List Char → List Char → List Char
  | 0, l, _ => l
  | Nat.succ fuel, l, p =>
    if p ≠ [] ∧ p <+: l then trimStartMatchesAux fuel (l.drop p.length) p else l

def trimStartMatches (s p : String) : String :=
  ⟨trimStartMatchesAux s.data.length s.data p.data⟩

/-- The chat-type decision of `send_group_message` (lines 628-670): the
`chat_id` is rebuilt from the normalised group id, `get_or_create_chat` is
consulted with expected type 2, and a lookup error falls back to 2. -/
def decideGroupChatType (db : List ImChat) (reqGroupId fromOpenId : String) (now : Int) :
    Int × List ImChat :=
  let normalized := normalizeGroupId reqGroupId
  let originalGroupId := trimStartMatches normalized "group_"
  let chatId := "group_" ++ originalGroupId
  match getOrCreateChat db chatId 2 fromOpenId normalized now with
  | Except.ok (c, db1) => (c.chatType, db1)
  | Except.error _ => (2, db)

/-- The table the message row is written to: `chat_type = 1` selects the
single-message table, anything else the group-message table. -/
def groupMessageTableTarget (db : List ImChat) (reqGroupId fromOpenId : String)
    (now : Int) : GroupWriteTarget × List ImChat :=
  let r := decideGroupChatType db reqGroupId fromOpenId now
  (if r.1 == 1 then GroupWriteTarget.singleTable else GroupWriteTarget.groupTable, r.2)

/-- `ImMessageService::save_group_message`: INSERT with
`ON DUPLICATE KEY UPDATE message_id = message_id` (a no-op when the
message_id already exists). -/
def saveGroupMessageRow (rows : List ImGroupMessage) (row : ImGroupMessage) :
    List ImGroupMessage :=
  if rows.any (fun r => r.messageId == row.messageId) then rows else rows ++ [row]

def chatDbTypeOne : List ImChat :=
  [{ chatId := "group_5", chatType := 1, ownerId := some "100", toId := "group_5",
     isMute := 0, isTop := 0, sequence := some 0, readSequence := some 0,
     remark := none, createTime := some 0, updateTime := some 0, delFlag := some 1,
     version := some 1 }]

/-- C4 counterexample: with the chat record `(chat_id = group_5,
owner = "100")` recording `chat_type = 1`, a group send from "100" still
resolves the effective chat type to 2 (the conflict-repair in
`get_or_create_chat` rewrites the row to the expected type 2) and writes to
the group-message table — not to the single-message table as the claim
requires. -/
theorem group_send_ignores_recorded_type_counterexample :
    (decideGroupChatType chatDbTypeOne "5" "100" 99).1 = 2 ∧
    (groupMessageTableTarget chatDbTypeOne "5" "100" 99).1 = GroupWriteTarget.groupTable ∧
    GroupWriteTarget.groupTable ≠ GroupWriteTarget.singleTable := by
  refine ⟨rfl, rfl, by decide⟩

/-- C4 amended: the effective chat type of a group send is the one returned
by `get_or_create_chat` with expected type 2, which repairs any row recording
`chat_type = 1` to 2; consequently the effective chat type is always 2, the
message is written as one row (keyed by its fresh message id) to the
group-message table on every database state, and neither the member count nor
the recorded chat type can select the single-message table. -/
theorem group_send_always_group_table (db : List ImChat)
    (reqGroupId fromOpenId : String) (now : Int) :
    (decideGroupChatType db reqGroupId fromOpenId now).1 = 2 ∧
    (groupMessageTableTarget db reqGroupId fromOpenId now).1 =
      GroupWriteTarget.groupTable ∧
    (∀ (rows : List ImGroupMessage) (row : ImGroupMessage),
      rows.any (fun r => r.messageId == row.messageId) = false →
      saveGroupMessageRow rows row = rows ++ [row]) := by
  have hct : (decideGroupChatType db reqGroupId fromOpenId now).1 = 2 := by
    unfold decideGroupChatType
    cases h : getOrCreateChat db
        ("group_" ++ trimStartMatches (normalizeGroupId reqGroupId) "group_") 2 fromOpenId
        (normalizeGroupId reqGroupId) now with
    | ok p =>
      obtain ⟨c, db1⟩ := p
      simp only [h]
      exact getOrCreateChat_returns_expected_type _ _ _ _ _ _ _ _ h
    | error e => simp only [h]
  refine ⟨hct, ?_, ?_⟩
  · simp [groupMessageTableTarget, hct]
  · intro rows row hfresh
    unfold saveGroupMessageRow
    rw [hfresh]
    rfl

/-- C4 amended witness: the concrete database holding a `chat_type = 1` row
for `group_5`. -/
theorem group_send_always_group_table_witness :
    (decideGroupChatType chatDbTypeOne "5" "100" 99).1 = 2 ∧
    saveGroupMessageRow []
      { messageId := "mid-2", groupId := "group_5", fromId := "100",
        messageBody := "hello", messageTime := 99, messageContentType := 1,
        extra := none, delFlag := 1, sequence := some 99, messageRandom := none,
        createTime := 99, updateTime := some 99, version := some 1, replyTo := none } =
      [{ messageId := "mid-2", groupId := "group_5", fromId := "100",
         messageBody := "hello", messageTime := 99, messageContentType := 1,
         extra := none, delFlag := 1, sequence := some 99, messageRandom := none,
         createTime := 99, updateTime := some 99, version := some 1, replyTo := none }] := by
  have h := group_send_always_group_table chatDbTypeOne "5" "100" 99
  exact ⟨h.1, h.2.2 _ _ rfl⟩

end Violet
